import Mathlib

/-!
Shallow embedding of the retrieval core of the vLLM_rag repository
(src/retriever.py, src/reranker.py, src/query_translation.py), together
with theorems checking the claims of the specification about it.

Modelling conventions:
* A LangChain `Document` is a structure holding `page_content` and the
  `"source"` metadata field (the only metadata the core reads).
* Construction of LangChain retrievers on the vector store is modelled as
  an AST (`Retriever`); executing a retriever against the store is an
  opaque parameter `exec : Retriever → String → List Document`.
* The cross-encoder `predict` call and the LLM chain are opaque functions
  returning `Option` — `none` models a raised exception.
* Python truthiness of `top_k : Optional[int]` is modelled exactly:
  both `None` and `0` are falsy.
* Float-valued parameters (`lambda_mult`, weights, thresholds) are carried
  as `Rat`; cross-encoder scores are carried as `Int`.  The code only
  passes the former through and only compares the latter, so no
  floating-point rounding behaviour is observable in the claims.
-/

namespace Rag

/-- A retrievable chunk: `page_content` plus the `"source"` metadata field. -/
structure Document where
  page_content : String
  source : String
deriving DecidableEq, Repr

/-- Boolean test that the first character list starts the second. -/
def listStartsWith : List Char → List Char → Bool
  | [], _ => true
  | _ :: _, [] => false
  | a :: as, b :: bs => a == b && listStartsWith as bs

/-- Boolean test that one character list occurs contiguously inside another. -/
def listSubListOf : List Char → List Char → Bool
  | needle, [] => needle.isEmpty
  | needle, hay@(_ :: t) => listStartsWith needle hay || listSubListOf needle t

/-- The Python substring operator `needle in hay` on strings. -/
def strIn (needle hay : String) : Bool :=
  listSubListOf needle.data hay.data

/-- The Python method `str.lower()`, modelled as character-wise lowering of the
underlying character list (extensionally `String.toLower`, but stated so
the kernel can evaluate it). -/
def lower (s : String) : String := String.mk (s.data.map Char.toLower)

/-- Indicator terms of `calculate_dynamic_k` (src/retriever.py line 54). -/
def indicators : List String :=
  ["ve", "neden", "nasil", "hangi", "ne zaman", "kim"]

/-- Count of indicator terms occurring as substrings of the lower-cased
question (src/retriever.py line 55). -/
def indicator_score (question : String) : Nat :=
  (indicators.filter (fun x => strIn x (lower question))).length

/-- `calculate_dynamic_k` from src/retriever.py lines 41-61. -/
def calculate_dynamic_k (question : String) (base_k : Nat := 6)
    (max_k : Nat := 12) : Nat :=
  let score := indicator_score question
  if 2 ≤ score then min (base_k + 4) max_k
  else if score = 1 then min (base_k + 2) max_k
  else base_k

/-- Numeric-class terms of `auto_select_strategy` (src/retriever.py line 78). -/
def numeric_terms : List String := ["kac", "sure", "ne zaman", "dakika"]

/-- Why/how-class terms of `auto_select_strategy` (src/retriever.py line 80). -/
def explanatory_terms : List String := ["neden", "nasil"]

/-- `auto_select_strategy` from src/retriever.py lines 67-83. -/
def auto_select_strategy (question : String) : String :=
  let q := lower question
  if numeric_terms.any (fun x => strIn x q) then "hybrid"
  else if explanatory_terms.any (fun x => strIn x q) then "mmr"
  else "similarity"

/-- Strategy resolution step of `create_retriever`
(src/retriever.py lines 192-193). -/
def resolve_strategy (strategy question : String) : String :=
  if strategy = "auto" then auto_select_strategy question else strategy

/-- The `search_kwargs` dictionary handed to `vectorstore.as_retriever`. -/
structure SearchKwargs where
  k : Nat
  filter : Option String := none
  fetch_k : Option Nat := none
  lambda_mult : Option Rat := none
  score_threshold : Option Rat := none
deriving DecidableEq, Repr

/-- AST of the retriever objects `create_retriever` builds on the vector
store: either a single `vectorstore.as_retriever(search_type, kwargs)`
call, or the `EnsembleRetriever` built by `create_hybrid_retriever`
(vector retriever plus the BM25 retriever with its `k` field set). -/
inductive Retriever where
  | vector (search_type : String) (kwargs : SearchKwargs)
  | ensemble (vector_retriever : Retriever) (bm25_k : Nat)
      (vector_weight bm25_weight : Rat)
deriving DecidableEq, Repr

/-- `create_hybrid_retriever` from src/retriever.py lines 89-115: an MMR
vector retriever and the BM25 retriever (its `k` field overwritten with
`k`), combined with weights `[1 - bm25_weight, bm25_weight]`. -/
def create_hybrid_retriever (k fetch_k : Nat) (lambda_mult bm25_weight : Rat) :
    Retriever :=
  let vector_retriever := Retriever.vector "mmr"
    { k := k, fetch_k := some fetch_k, lambda_mult := some lambda_mult }
  Retriever.ensemble vector_retriever k (1 - bm25_weight) bm25_weight

/-- Strategy dispatch of `create_retriever` (src/retriever.py lines
201-245): builds the base retrieval operation for the resolved strategy.
`bm25_retriever` is `some ()` when a lexical index was supplied. -/
def build_base_retriever (strategy : String) (search_k fetch_k : Nat)
    (lambda_mult score_threshold : Rat) (metadata_filter : Option String)
    (bm25_retriever : Option Unit) (bm25_weight : Rat) : Retriever :=
  let search_kwargs : SearchKwargs := { k := search_k, filter := metadata_filter }
  if strategy = "similarity" then
    .vector "similarity" search_kwargs
  else if strategy = "mmr" then
    .vector "mmr" { search_kwargs with
      fetch_k := some fetch_k, lambda_mult := some lambda_mult }
  else if strategy = "threshold" then
    .vector "similarity_score_threshold" { search_kwargs with
      score_threshold := some score_threshold }
  else if strategy = "hybrid" && bm25_retriever.isSome then
    create_hybrid_retriever search_k fetch_k lambda_mult bm25_weight
  else
    .vector "mmr"
      { k := search_k, fetch_k := some fetch_k, lambda_mult := some lambda_mult }

/-- The cross-encoder `predict` call over (query, content) pairs; `none`
models a raised exception, `some scores` a successful scoring. -/
abbrev RerankModel := List (String × String) → Option (List Int)

/-- The LLM chain invoked with the question and `num_queries`; `none`
models a raised exception. -/
abbrev LLM := String → Nat → Option String

/-- The Python expression `docs[:top_k] if top_k else docs` on an `Optional[int]`:
`None` and `0` are both falsy, so neither truncates. -/
def truncate_if (docs : List Document) (top_k : Option Nat) : List Document :=
  match top_k with
  | some k => if k = 0 then docs else docs.take k
  | none => docs

/-- `rerank_documents` from src/reranker.py lines 50-106.
`cross_encoder_available` is the module flag `CROSS_ENCODER_AVAILABLE`. -/
def rerank_documents (cross_encoder_available : Bool) (reranker : RerankModel)
    (query : String) (documents : List Document) (top_k : Option Nat) :
    List Document :=
  if documents.isEmpty then []
  else if !cross_encoder_available then truncate_if documents top_k
  else
    let pairs := documents.map (fun doc => (query, doc.page_content))
    match reranker pairs with
    | none => truncate_if documents top_k
    | some scores =>
        let scored_docs := scores.zip documents
        let sorted_docs := scored_docs.mergeSort (fun a b => decide (b.1 ≤ a.1))
        let reranked_docs := sorted_docs.map Prod.snd
        truncate_if reranked_docs top_k

/-- `create_rerank_retriever` from src/reranker.py lines 109-153, with the
document lookup of the base retriever abstracted as a function. -/
def create_rerank_retriever (cross_encoder_available : Bool)
    (base_retriever : String → List Document) (query : String)
    (reranker : RerankModel) (top_k : Option Nat) (rerank_top_n : Nat) :
    List Document :=
  let docs := base_retriever query
  if docs.length ≤ 1 then truncate_if docs top_k
  else rerank_documents cross_encoder_available reranker query
    (docs.take rerank_top_n) top_k

/-- Per-line cleanup in `generate_multi_queries`
(src/query_translation.py line 66): `q.lstrip("0123456789.-) ").strip()`. -/
def strip_enumeration (q : String) : String :=
  (q.dropWhile (fun c => "0123456789.-) ".contains c)).trim

/-- Parsing of the generated text in `generate_multi_queries`
(src/query_translation.py lines 59-71): split on newlines, trim, drop
blanks, strip enumeration markers, keep lines longer than 5 characters,
truncate to `num_queries`. -/
def parse_generated_queries (result : String) (num_queries : Nat) :
    List String :=
  let queries := ((result.splitOn "\n").map String.trim).filter (fun q => q ≠ "")
  let cleaned_queries := (queries.map strip_enumeration).filter
    (fun q => q ≠ "" ∧ 5 < q.length)
  cleaned_queries.take num_queries

/-- `generate_multi_queries` from src/query_translation.py lines 13-78. -/
def generate_multi_queries (question : String) (llm : LLM)
    (num_queries : Nat := 3) : List String :=
  match llm question num_queries with
  | none => [question]
  | some result => question :: parse_generated_queries result num_queries

/-- The per-document fingerprint of the multi-query merge
(src/query_translation.py line 143): first 100 characters of the content
plus the `"source"` metadata (the Python `hash` of this pair is modelled
as the pair itself). -/
def fingerprint (doc : Document) : String × String :=
  (doc.page_content.take 100, doc.source)

/-- One iteration of the merge loop (src/query_translation.py lines
141-146): append the document unless its fingerprint was already seen. -/
def merge_step (acc : List Document × List (String × String))
    (doc : Document) : List Document × List (String × String) :=
  let doc_id := fingerprint doc
  if doc_id ∈ acc.2 then acc else (acc.1 ++ [doc], doc_id :: acc.2)

/-- The full merge loop of `create_multi_query_retriever`
(src/query_translation.py lines 124-146): fold the per-query result lists
through `merge_step`, starting from empty `all_docs` and `seen_ids`. -/
def merge_query_results (queries : List String)
    (retrieve : String → List Document) :
    List Document × List (String × String) :=
  queries.foldl (fun acc query => (retrieve query).foldl merge_step acc)
    ([], [])

/-- The possible return values of `create_retriever`
(src/retriever.py lines 121-262): a plain LangChain retriever, the
`rerank_wrapper` closure (capturing the base retriever, the reranker, the
final `k` and `rerank_top_n`), the multi-query closure, or the
multi-query-plus-rerank closure. -/
inductive RetrieverResult where
  | plain (r : Retriever)
  | rerank_wrapper (base : Retriever) (reranker : RerankModel)
      (top_k : Nat) (rerank_top_n : Nat)
  | multi_fn (f : String → List Document)
  | multi_rerank (f : String → List Document) (reranker : RerankModel)
      (top_k : Nat) (rerank_top_n : Nat)

/-- The single-query path of `create_retriever`
(src/retriever.py lines 188-262): compute the dynamic k, resolve the
strategy, enlarge `search_k` when re-ranking is on AND a reranker was
supplied, build the base retriever, and wrap it for re-ranking when
applicable. -/
def create_retriever_single (question : String)
    (bm25_retriever : Option Unit) (strategy : String)
    (base_k fetch_k : Nat) (lambda_mult score_threshold : Rat)
    (metadata_filter : Option String) (bm25_weight : Rat)
    (use_rerank : Bool) (reranker : Option RerankModel)
    (rerank_top_n : Nat) : RetrieverResult :=
  let k := calculate_dynamic_k question base_k
  let strategy := resolve_strategy strategy question
  let search_k := if use_rerank && reranker.isSome
    then max rerank_top_n (k * 2) else k
  let base_retriever := build_base_retriever strategy search_k fetch_k
    lambda_mult score_threshold metadata_filter bm25_retriever bm25_weight
  match use_rerank, reranker with
  | true, some r => .rerank_wrapper base_retriever r k rerank_top_n
  | _, _ => .plain base_retriever

/-- Executing a `create_retriever` result on a query: plain retrievers run
against the store via `exec` (`get_relevant_documents`); the rerank
closures call `create_rerank_retriever`; the multi-query closure returns
its precomputed documents. -/
def run_result (exec : Retriever → String → List Document)
    (cross_encoder_available : Bool) (res : RetrieverResult)
    (query : String) : List Document :=
  match res with
  | .plain r => exec r query
  | .rerank_wrapper base r top_k top_n =>
      create_rerank_retriever cross_encoder_available (exec base) query r
        (some top_k) top_n
  | .multi_fn f => f query
  | .multi_rerank f r top_k top_n =>
      create_rerank_retriever cross_encoder_available f query r
        (some top_k) top_n

/-- The per-query retrieval inside `create_multi_query_retriever`
(src/query_translation.py lines 127-138): call `create_retriever` with
the expanded query and the forwarded kwargs (`use_multi_query`,
`use_rerank` and `llm` keep their `False`/`None` defaults, so this is the
single-query path with no rerank wrapping, and the cross-encoder flag is
irrelevant), then `get_relevant_documents(query)`. -/
def multi_query_retrieve (exec : Retriever → String → List Document)
    (bm25_retriever : Option Unit) (strategy : String)
    (base_k fetch_k : Nat) (lambda_mult score_threshold : Rat)
    (metadata_filter : Option String) (bm25_weight : Rat)
    (query : String) : List Document :=
  run_result exec true
    (create_retriever_single query bm25_retriever strategy base_k fetch_k
      lambda_mult score_threshold metadata_filter bm25_weight false none 20)
    query

/-- `create_multi_query_retriever` from src/query_translation.py lines
81-161: expand the question, retrieve per expanded query, merge with
fingerprint deduplication, keep at most `base_k * 2` documents, and
return a function that ignores its query argument. -/
def create_multi_query_retriever (exec : Retriever → String → List Document)
    (question : String) (llm : LLM) (num_queries : Nat)
    (bm25_retriever : Option Unit) (strategy : String)
    (base_k fetch_k : Nat) (lambda_mult score_threshold : Rat)
    (metadata_filter : Option String) (bm25_weight : Rat) :
    String → List Document :=
  let queries := generate_multi_queries question llm num_queries
  let retrieve := multi_query_retrieve exec bm25_retriever strategy base_k
    fetch_k lambda_mult score_threshold metadata_filter bm25_weight
  let all_docs := (merge_query_results queries retrieve).1
  let final_docs := all_docs.take (base_k * 2)
  fun _query => final_docs

/-- `create_retriever` from src/retriever.py lines 121-262.  The
vector store and its `as_retriever` semantics are abstracted by `exec`;
the multi-query branch is taken exactly when `use_multi_query` is set and
an `llm` was supplied. -/
def create_retriever (exec : Retriever → String → List Document)
    (question : String) (bm25_retriever : Option Unit) (strategy : String)
    (base_k fetch_k : Nat) (lambda_mult score_threshold : Rat)
    (metadata_filter : Option String) (bm25_weight : Rat)
    (use_multi_query : Bool) (llm : Option LLM) (num_queries : Nat)
    (use_rerank : Bool) (reranker : Option RerankModel)
    (rerank_top_n : Nat) : RetrieverResult :=
  match use_multi_query, llm with
  | true, some l =>
      let base_retriever := create_multi_query_retriever exec question l
        num_queries bm25_retriever strategy base_k fetch_k lambda_mult
        score_threshold metadata_filter bm25_weight
      match use_rerank, reranker with
      | true, some r => .multi_rerank base_retriever r base_k rerank_top_n
      | _, _ => .multi_fn base_retriever
  | _, _ =>
      create_retriever_single question bm25_retriever strategy base_k
        fetch_k lambda_mult score_threshold metadata_filter bm25_weight
        use_rerank reranker rerank_top_n

/-- The candidate count a built retrieval operation will request from the
vector store (for the hybrid ensemble, the count of its vector arm; the
BM25 arm is set to the same value). -/
def Retriever.search_k : Retriever → Nat
  | .vector _ kwargs => kwargs.k
  | .ensemble vector_retriever _ _ _ => vector_retriever.search_k

/-- The base retrieval operation underlying a `create_retriever` result,
when the result is not a multi-query closure. -/
def RetrieverResult.base_retriever? : RetrieverResult → Option Retriever
  | .plain r => some r
  | .rerank_wrapper base _ _ _ => some base
  | _ => none

/-- Specification-level first-occurrence deduplication by fingerprint,
relative to an already-seen set: keeps a document exactly when its
fingerprint is not in `seen` and has not occurred earlier in the list. -/
def dedup_first_from (seen : List (String × String)) :
    List Document → List Document
  | [] => []
  | d :: ds =>
      if fingerprint d ∈ seen then dedup_first_from seen ds
      else d :: dedup_first_from (fingerprint d :: seen) ds

/-- First-occurrence deduplication by fingerprint of a document list. -/
def dedup_first (docs : List Document) : List Document :=
  dedup_first_from [] docs

/-- The seen-fingerprint set after folding a document list. -/
def seen_after (seen : List (String × String)) :
    List Document → List (String × String)
  | [] => seen
  | d :: ds =>
      if fingerprint d ∈ seen then seen_after seen ds
      else seen_after (fingerprint d :: seen) ds

/-- A sample document used to instantiate theorems. -/
def docA : Document := { page_content := "alpha content", source := "a.pdf" }

/-- A second sample document used to instantiate theorems. -/
def docB : Document := { page_content := "beta content", source := "b.pdf" }

/-- Claim C1: for every question, `base_k` and `max_k` with
`base_k ≤ max_k`, `calculate_dynamic_k` returns `base_k + 4` capped at
`max_k` when at least 2 indicator terms occur as substrings of the
lower-cased question, `base_k + 2` capped at `max_k` when exactly 1
occurs, and `base_k` otherwise; the result is monotone non-decreasing in
the indicator-term count and never exceeds `max_k`. -/
theorem claim_C1_dynamic_k (base_k max_k : Nat) (hbm : base_k ≤ max_k) :
    (∀ question, 2 ≤ indicator_score question →
      calculate_dynamic_k question base_k max_k = min (base_k + 4) max_k) ∧
    (∀ question, indicator_score question = 1 →
      calculate_dynamic_k question base_k max_k = min (base_k + 2) max_k) ∧
    (∀ question, indicator_score question = 0 →
      calculate_dynamic_k question base_k max_k = base_k) ∧
    (∀ q1 q2, indicator_score q1 ≤ indicator_score q2 →
      calculate_dynamic_k q1 base_k max_k ≤ calculate_dynamic_k q2 base_k max_k) ∧
    (∀ question, calculate_dynamic_k question base_k max_k ≤ max_k) := by
  refine ⟨fun question h => ?_, fun question h => ?_, fun question h => ?_,
    fun q1 q2 h => ?_, fun question => ?_⟩ <;>
    simp only [calculate_dynamic_k] <;> split_ifs <;> omega

/-- Witness for C1 at the example of the spec: a question with no indicator
terms keeps `k = base_k = 6`. -/
theorem claim_C1_dynamic_k_witness :
    calculate_dynamic_k "daily scrum ne kadar surer?" 6 12 = 6 :=
  (claim_C1_dynamic_k 6 12 (by decide)).2.2.1 "daily scrum ne kadar surer?"
    (by decide)

/-- The auto-selected strategy is one of hybrid, mmr and similarity, and
in particular never the sentinel string "auto". -/
theorem auto_select_strategy_ne_auto (question : String) :
    auto_select_strategy question ≠ "auto" := by
  simp only [auto_select_strategy]
  split_ifs <;> decide

/-- Claim C2: a question containing a numeric-class term selects the
hybrid strategy (first rule wins, even when a why/how-class term is also
present); the single-query path of `create_retriever` runs this selection
exactly when the caller passes strategy "auto", and any other explicit
strategy value bypasses it. -/
theorem claim_C2_strategy_precedence (question s : String)
    (bm25_retriever : Option Unit) (base_k fetch_k : Nat)
    (lambda_mult score_threshold : Rat) (metadata_filter : Option String)
    (bm25_weight : Rat) (use_rerank : Bool) (reranker : Option RerankModel)
    (rerank_top_n : Nat)
    (hnum : numeric_terms.any (fun x => strIn x (lower question)) = true) :
    auto_select_strategy question = "hybrid" ∧
    resolve_strategy "auto" question = auto_select_strategy question ∧
    create_retriever_single question bm25_retriever "auto" base_k fetch_k
        lambda_mult score_threshold metadata_filter bm25_weight use_rerank
        reranker rerank_top_n =
      create_retriever_single question bm25_retriever
        (auto_select_strategy question) base_k fetch_k lambda_mult
        score_threshold metadata_filter bm25_weight use_rerank reranker
        rerank_top_n ∧
    (s ≠ "auto" → resolve_strategy s question = s) := by
  have h1 : resolve_strategy "auto" question = auto_select_strategy question := by
    unfold resolve_strategy
    rw [if_pos rfl]
  have h2 : resolve_strategy (auto_select_strategy question) question =
      auto_select_strategy question := by
    unfold resolve_strategy
    rw [if_neg (auto_select_strategy_ne_auto question)]
  refine ⟨?_, h1, ?_, fun hs => ?_⟩
  · unfold auto_select_strategy
    rw [if_pos hnum]
  · unfold create_retriever_single
    rw [h1, h2]
  · unfold resolve_strategy
    rw [if_neg hs]

/-- Witness for C2 at the example question of the spec, which contains both the
numeric term "sure" and the explanatory term "neden". -/
theorem claim_C2_strategy_precedence_witness :
    auto_select_strategy "daily scrum ne kadar surer ve neden yapilir?" =
      "hybrid" :=
  (claim_C2_strategy_precedence "daily scrum ne kadar surer ve neden yapilir?"
    "mmr" none 6 20 (7 / 10) (3 / 4) none (3 / 10) false none 20
    (by decide)).1

/-- Claim C5: `generate_multi_queries` always returns the original
question at position 0, and on generation failure it returns exactly
`[question]` without propagating the error. -/
theorem claim_C5_expansion_head (question : String) (llm : LLM)
    (num_queries : Nat) :
    (generate_multi_queries question llm num_queries).head? = some question ∧
    (llm question num_queries = none →
      generate_multi_queries question llm num_queries = [question]) := by
  unfold generate_multi_queries
  cases h : llm question num_queries <;> simp

/-- Witness for C5 with a failing generator. -/
theorem claim_C5_expansion_head_witness :
    generate_multi_queries "soru" (fun _ _ => none) 3 = ["soru"] :=
  (claim_C5_expansion_head "soru" (fun _ _ => none) 3).2 rfl

/-- Claim C9: with `use_multi_query` set but no llm supplied,
`create_retriever` takes the single-query path, identically to a call
with `use_multi_query` unset (for any llm value on that call). -/
theorem claim_C9_multi_query_needs_llm
    (exec : Retriever → String → List Document) (question : String)
    (bm25_retriever : Option Unit) (strategy : String) (base_k fetch_k : Nat)
    (lambda_mult score_threshold : Rat) (metadata_filter : Option String)
    (bm25_weight : Rat) (llm' : Option LLM) (num_queries : Nat)
    (use_rerank : Bool) (reranker : Option RerankModel) (rerank_top_n : Nat) :
    create_retriever exec question bm25_retriever strategy base_k fetch_k
        lambda_mult score_threshold metadata_filter bm25_weight true none
        num_queries use_rerank reranker rerank_top_n =
      create_retriever exec question bm25_retriever strategy base_k fetch_k
        lambda_mult score_threshold metadata_filter bm25_weight false llm'
        num_queries use_rerank reranker rerank_top_n ∧
    create_retriever exec question bm25_retriever strategy base_k fetch_k
        lambda_mult score_threshold metadata_filter bm25_weight true none
        num_queries use_rerank reranker rerank_top_n =
      create_retriever_single question bm25_retriever strategy base_k
        fetch_k lambda_mult score_threshold metadata_filter bm25_weight
        use_rerank reranker rerank_top_n := by
  cases llm' <;> exact ⟨rfl, rfl⟩

/-- Claim C10: the function returned by `create_multi_query_retriever`
ignores its query argument — all retrieval happened at construction time —
so any two query strings yield the identical document list. -/
theorem claim_C10_query_ignored
    (exec : Retriever → String → List Document) (question : String)
    (llm : LLM) (num_queries : Nat) (bm25_retriever : Option Unit)
    (strategy : String) (base_k fetch_k : Nat)
    (lambda_mult score_threshold : Rat) (metadata_filter : Option String)
    (bm25_weight : Rat) (q1 q2 : String) :
    create_multi_query_retriever exec question llm num_queries
        bm25_retriever strategy base_k fetch_k lambda_mult score_threshold
        metadata_filter bm25_weight q1 =
      create_multi_query_retriever exec question llm num_queries
        bm25_retriever strategy base_k fetch_k lambda_mult score_threshold
        metadata_filter bm25_weight q2 := rfl

/-- The base retrieval operation always requests exactly the `search_k`
candidates it was built with, whichever strategy branch is taken. -/
theorem search_k_build_base (strategy : String) (search_k fetch_k : Nat)
    (lambda_mult score_threshold : Rat) (metadata_filter : Option String)
    (bm25_retriever : Option Unit) (bm25_weight : Rat) :
    (build_base_retriever strategy search_k fetch_k lambda_mult
      score_threshold metadata_filter bm25_retriever bm25_weight).search_k =
      search_k := by
  simp only [build_base_retriever, create_hybrid_retriever]
  split_ifs <;> rfl

/-- Claim C7 (amended): in the single-query path, the base retrieval
operation is built with candidate count `max(rerank_top_n, k*2)` when
`use_rerank` is set AND a reranker object is supplied; when `use_rerank`
is unset the count is the dynamic `k`.  (When `use_rerank` is set without
a reranker, the code keeps `search_k = k` — see the counterexample.) -/
theorem claim_C7_search_k (question : String) (bm25_retriever : Option Unit)
    (strategy : String) (base_k fetch_k : Nat)
    (lambda_mult score_threshold : Rat) (metadata_filter : Option String)
    (bm25_weight : Rat) (use_rerank : Bool) (reranker : Option RerankModel)
    (rerank_top_n : Nat) :
    (use_rerank = true → reranker.isSome = true →
      ((create_retriever_single question bm25_retriever strategy base_k
          fetch_k lambda_mult score_threshold metadata_filter bm25_weight
          use_rerank reranker rerank_top_n).base_retriever?).map
          Retriever.search_k =
        some (max rerank_top_n (calculate_dynamic_k question base_k * 2))) ∧
    (use_rerank = false →
      ((create_retriever_single question bm25_retriever strategy base_k
          fetch_k lambda_mult score_threshold metadata_filter bm25_weight
          use_rerank reranker rerank_top_n).base_retriever?).map
          Retriever.search_k =
        some (calculate_dynamic_k question base_k)) := by
  cases use_rerank <;> cases reranker <;>
    simp [create_retriever_single, RetrieverResult.base_retriever?,
      search_k_build_base]

/-- Witness for C7: with re-ranking on and a reranker supplied, the base
operation requests `max(20, 6*2) = 20` candidates. -/
theorem claim_C7_search_k_witness :
    ((create_retriever_single "soru" none "similarity" 6 20 (7 / 10) (3 / 4)
        none (3 / 10) true (some fun _ => none) 20).base_retriever?).map
        Retriever.search_k =
      some (max 20 (calculate_dynamic_k "soru" 6 * 2)) :=
  (claim_C7_search_k "soru" none "similarity" 6 20 (7 / 10) (3 / 4) none
    (3 / 10) true (some fun _ => none) 20).1 rfl rfl

/-- Counterexample to C7 as stated: with `use_rerank` set but no reranker
supplied, the code keeps `search_k = k = 6` instead of the claimed
`max(rerank_top_n, k*2) = 20`. -/
theorem claim_C7_counterexample :
    ((create_retriever_single "soru" none "similarity" 6 20 (7 / 10) (3 / 4)
        none (3 / 10) true none 20).base_retriever?).map Retriever.search_k ≠
      some (max 20 (calculate_dynamic_k "soru" 6 * 2)) := by decide

/-- Claim C8: when the strategy resolves to hybrid but no BM25 retriever
is available, `create_retriever` does not fail: the fallback branch builds
the MMR (diversity) operation with the same `search_k`, `fetch_k` and
`lambda_mult`. -/
theorem claim_C8_hybrid_fallback (question strategy : String)
    (base_k fetch_k : Nat) (lambda_mult score_threshold : Rat)
    (metadata_filter : Option String) (bm25_weight : Rat) (use_rerank : Bool)
    (reranker : Option RerankModel) (rerank_top_n : Nat)
    (hhyb : resolve_strategy strategy question = "hybrid") :
    (create_retriever_single question none strategy base_k fetch_k
        lambda_mult score_threshold metadata_filter bm25_weight use_rerank
        reranker rerank_top_n).base_retriever? =
      some (.vector "mmr"
        { k := if use_rerank && reranker.isSome
            then max rerank_top_n (calculate_dynamic_k question base_k * 2)
            else calculate_dynamic_k question base_k,
          fetch_k := some fetch_k, lambda_mult := some lambda_mult }) := by
  cases use_rerank <;> cases reranker <;>
    simp [create_retriever_single, RetrieverResult.base_retriever?, hhyb,
      build_base_retriever]

/-- Witness for C8: an auto-resolved hybrid question with no BM25 index
falls back to the MMR operation. -/
theorem claim_C8_hybrid_fallback_witness :
    (create_retriever_single "kac dakika?" none "auto" 6 20 (7 / 10) (3 / 4)
        none (3 / 10) false none 20).base_retriever? =
      some (.vector "mmr"
        { k := if false && (none : Option RerankModel).isSome
            then max 20 (calculate_dynamic_k "kac dakika?" 6 * 2)
            else calculate_dynamic_k "kac dakika?" 6,
          fetch_k := some 20, lambda_mult := some (7 / 10) }) :=
  claim_C8_hybrid_fallback "kac dakika?" "auto" 6 20 (7 / 10) (3 / 4) none
    (3 / 10) false none 20 (by decide)

/-- Zipping a mapped list with the original list pairs every element with
its image. -/
theorem zip_map_self {α β : Type} (g : α → β) :
    ∀ l : List α, (l.map g).zip l = l.map (fun a => (g a, a)) := by
  intro l
  induction l with
  | nil => rfl
  | cons a l ih => simp [ih]

/-- Shape of `rerank_documents` when the cross-encoder is available and
`predict` succeeds: sort the scored pairs by non-increasing score (stably,
as the Python `sort(reverse=True)` does), project the documents, truncate. -/
theorem rerank_documents_success (reranker : RerankModel) (scores : List Int)
    (query : String) (documents : List Document) (top_k : Option Nat)
    (hne : documents ≠ [])
    (hs : reranker (documents.map fun doc => (query, doc.page_content)) =
      some scores) :
    rerank_documents true reranker query documents top_k =
      truncate_if (((scores.zip documents).mergeSort
        (fun a b => decide (b.1 ≤ a.1))).map Prod.snd) top_k := by
  obtain ⟨d, ds, rfl⟩ : ∃ d ds, documents = d :: ds := by
    cases documents with
    | nil => exact absurd rfl hne
    | cons d ds => exact ⟨d, ds, rfl⟩
  simp only [rerank_documents, List.isEmpty_cons, Bool.not_true,
    Bool.false_eq_true, if_false, hs]

/-- Claim C3 (amended): for every scoring function, non-empty document
list and `top_k = n ≥ 1`, the successful rerank returns documents ordered
non-increasingly by their cross-encoder scores, with length
`min(n, len(documents))`.  (For `n = 0` the code skips truncation — see
the counterexample.) -/
theorem claim_C3_rerank_sorted (f : String × String → Int) (query : String)
    (documents : List Document) (n : Nat) (hn : 1 ≤ n)
    (hne : documents ≠ []) :
    (rerank_documents true (fun pairs => some (pairs.map f)) query documents
        (some n)).length = min n documents.length ∧
    List.Sorted (fun a b : Int => b ≤ a)
      ((rerank_documents true (fun pairs => some (pairs.map f)) query
          documents (some n)).map fun doc => f (query, doc.page_content)) := by
  have hn0 : ¬ n = 0 := by omega
  set g : Document → Int := fun doc => f (query, doc.page_content) with hg
  have hs : (fun pairs => some (pairs.map f))
      (documents.map fun doc => (query, doc.page_content)) =
      some (documents.map g) := by
    simp [List.map_map]
  have hred := rerank_documents_success (fun pairs => some (pairs.map f))
    (documents.map g) query documents (some n) hne hs
  rw [hred, zip_map_self g documents]
  set le : Int × Document → Int × Document → Bool :=
    fun a b => decide (b.1 ≤ a.1) with hle
  set S := documents.map (fun d => (g d, d)) with hS
  set T := S.mergeSort le with hT
  have hperm : T.Perm S := List.mergeSort_perm S le
  have htrans : ∀ a b c : Int × Document,
      le a b = true → le b c = true → le a c = true := by
    intro a b c hab hbc
    simp only [hle, decide_eq_true_eq] at hab hbc ⊢
    omega
  have htotal : ∀ a b : Int × Document, (le a b || le b a) = true := by
    intro a b
    simp only [hle, Bool.or_eq_true, decide_eq_true_eq]
    omega
  have hsorted : T.Pairwise (fun a b : Int × Document => b.1 ≤ a.1) := by
    have h := List.sorted_mergeSort htrans htotal S
    exact h.imp (fun hab => by
      simpa only [hle, decide_eq_true_eq] using hab)
  have hmem : ∀ p ∈ T, p.1 = g p.2 := by
    intro p hp
    have hpS : p ∈ S := hperm.mem_iff.mp hp
    rw [hS] at hpS
    obtain ⟨d, _, rfl⟩ := List.mem_map.mp hpS
    rfl
  have htrunc : truncate_if (T.map Prod.snd) (some n) =
      (T.map Prod.snd).take n := by
    simp [truncate_if, hn0]
  rw [htrunc]
  constructor
  · have hlen : T.length = documents.length := by
      rw [hT, List.length_mergeSort, hS, List.length_map]
    simp [List.length_take, hlen, Nat.min_comm]
  · have hmaps : (T.map Prod.snd).map g = T.map Prod.fst := by
      rw [List.map_map]
      exact List.map_congr_left (fun p hp => (hmem p hp).symm)
    rw [List.map_take, hmaps]
    exact List.Pairwise.take (List.pairwise_map.mpr hsorted)

/-- Witness for C3 at two concrete documents with `top_k = 1`. -/
theorem claim_C3_rerank_sorted_witness :
    (rerank_documents true
        (fun pairs => some (pairs.map fun p => (p.2.length : Int))) "q"
        [docA, docB] (some 1)).length = min 1 [docA, docB].length :=
  (claim_C3_rerank_sorted (fun p => (p.2.length : Int)) "q" [docA, docB] 1
    (by decide) (by decide)).1

/-- Counterexample to C3 as stated: with `top_k = 0` the code returns all
documents (Python `if top_k:` treats 0 as no truncation), so the length is
not `min(0, len(documents))`. -/
theorem claim_C3_counterexample :
    (rerank_documents true (fun pairs => some (pairs.map fun _ => (0 : Int)))
        "q" [docA] (some 0)).length ≠ min 0 [docA].length := by
  simp [rerank_documents, truncate_if, List.mergeSort_singleton]

/-- Claim C4 (amended): `rerank_documents` is total; on empty input it
returns the empty list; when the scorer is unavailable or its call fails
it returns the input documents unchanged in their original order,
truncated to `top_k` when a nonzero `top_k` is given (Python truthiness:
`top_k` absent or 0 leaves the list untruncated — see the
counterexample). -/
theorem claim_C4_rerank_failure (cross_encoder_available : Bool)
    (reranker : RerankModel) (query : String) (documents : List Document)
    (top_k : Option Nat)
    (hfail : cross_encoder_available = false ∨
      reranker (documents.map fun doc => (query, doc.page_content)) = none) :
    rerank_documents cross_encoder_available reranker query [] top_k = [] ∧
    rerank_documents cross_encoder_available reranker query documents top_k =
      truncate_if documents top_k ∧
    (∀ k, 1 ≤ k → truncate_if documents (some k) = documents.take k) ∧
    truncate_if documents none = documents ∧
    truncate_if documents (some 0) = documents := by
  refine ⟨?_, ?_, ?_, rfl, rfl⟩
  · simp [rerank_documents]
  · cases documents with
    | nil =>
        simp [rerank_documents, truncate_if]
        cases top_k <;> simp
    | cons d ds =>
        rcases hfail with h | h
        · subst h
          simp [rerank_documents]
        · simp only [List.map_cons] at h
          cases cross_encoder_available <;>
            simp [rerank_documents, h]
  · intro k hk
    have hk0 : ¬ k = 0 := by omega
    simp [truncate_if, hk0]

/-- Witness for C4: an unavailable scorer returns the input truncated. -/
theorem claim_C4_rerank_failure_witness :
    rerank_documents false (fun _ => none) "q" [docA, docB] (some 1) =
      truncate_if [docA, docB] (some 1) :=
  (claim_C4_rerank_failure false (fun _ => none) "q" [docA, docB] (some 1)
    (Or.inl rfl)).2.1

/-- Counterexample to C4 as stated: on a failing scorer call with
`top_k = 0` given, the result is not the input truncated to 0 elements —
the code returns the input in full. -/
theorem claim_C4_counterexample :
    rerank_documents true (fun _ => none) "q" [docA] (some 0) ≠
      [docA].take 0 := by
  decide

/-- Folding the merge loop over a document list appends exactly the
first-occurrence deduplication of that list, and accumulates the
corresponding seen set. -/
theorem foldl_merge_step (l : List Document) :
    ∀ (acc : List Document) (seen : List (String × String)),
    l.foldl merge_step (acc, seen) =
      (acc ++ dedup_first_from seen l, seen_after seen l) := by
  induction l with
  | nil =>
      intro acc seen
      simp [dedup_first_from, seen_after]
  | cons d ds ih =>
      intro acc seen
      simp only [List.foldl_cons, merge_step, dedup_first_from, seen_after]
      by_cases h : fingerprint d ∈ seen
      · rw [if_pos h, if_pos h, if_pos h, ih]
      · rw [if_neg h, if_neg h, if_neg h, ih]
        simp

/-- Folding per-query retrievals through the merge loop is the same as
folding the concatenation of all per-query result lists. -/
theorem foldl_merge_queries (retrieve : String → List Document) :
    ∀ (queries : List String) (acc : List Document × List (String × String)),
    queries.foldl (fun acc query => (retrieve query).foldl merge_step acc)
        acc =
      (queries.flatMap retrieve).foldl merge_step acc := by
  intro queries
  induction queries with
  | nil => intro acc; rfl
  | cons q qs ih =>
      intro acc
      simp [List.flatMap_cons, List.foldl_append, ih]

/-- The merge loop of `create_multi_query_retriever` computes the
first-occurrence fingerprint deduplication of the concatenated per-query
results. -/
theorem merge_query_results_eq (queries : List String)
    (retrieve : String → List Document) :
    merge_query_results queries retrieve =
      (dedup_first (queries.flatMap retrieve),
       seen_after [] (queries.flatMap retrieve)) := by
  unfold merge_query_results dedup_first
  rw [foldl_merge_queries, foldl_merge_step]
  simp

/-- First-occurrence deduplication yields a sublist (order preserved). -/
theorem dedup_first_from_sublist :
    ∀ (l : List Document) (seen : List (String × String)),
    (dedup_first_from seen l).Sublist l := by
  intro l
  induction l with
  | nil => intro seen; simp [dedup_first_from]
  | cons d ds ih =>
      intro seen
      simp only [dedup_first_from]
      by_cases h : fingerprint d ∈ seen
      · rw [if_pos h]
        exact (ih seen).cons d
      · rw [if_neg h]
        exact (ih _).cons₂ d

/-- No document kept by first-occurrence deduplication has a fingerprint
from the initial seen set. -/
theorem dedup_first_from_not_seen :
    ∀ (l : List Document) (seen : List (String × String)) (d : Document),
    d ∈ dedup_first_from seen l → fingerprint d ∉ seen := by
  intro l
  induction l with
  | nil => simp [dedup_first_from]
  | cons a as ih =>
      intro seen d hd
      simp only [dedup_first_from] at hd
      by_cases h : fingerprint a ∈ seen
      · rw [if_pos h] at hd
        exact ih seen d hd
      · rw [if_neg h] at hd
        rcases List.mem_cons.mp hd with rfl | hd'
        · exact h
        · intro hmem
          exact ih _ d hd' (List.mem_cons_of_mem _ hmem)

/-- First-occurrence deduplication leaves no two documents with the same
fingerprint. -/
theorem dedup_first_from_pairwise :
    ∀ (l : List Document) (seen : List (String × String)),
    (dedup_first_from seen l).Pairwise
      (fun a b => fingerprint a ≠ fingerprint b) := by
  intro l
  induction l with
  | nil => intro seen; simp [dedup_first_from]
  | cons a as ih =>
      intro seen
      simp only [dedup_first_from]
      by_cases h : fingerprint a ∈ seen
      · rw [if_pos h]
        exact ih seen
      · rw [if_neg h]
        refine List.Pairwise.cons ?_ (ih _)
        intro b hb heq
        refine dedup_first_from_not_seen as _ b hb ?_
        rw [← heq]
        exact List.mem_cons_self _ _

/-- Claim C6: the multi-query merge returns, for any query argument, the
first-occurrence fingerprint deduplication of the concatenated per-query
result lists (earlier queries first), truncated to `base_k * 2`; hence no
two retained documents share a fingerprint, the pool is an
order-preserving sublist of the concatenation, and it holds at most
`2 * base_k` documents. -/
theorem claim_C6_merge_dedup (exec : Retriever → String → List Document)
    (question : String) (llm : LLM) (num_queries : Nat)
    (bm25_retriever : Option Unit) (strategy : String) (base_k fetch_k : Nat)
    (lambda_mult score_threshold : Rat) (metadata_filter : Option String)
    (bm25_weight : Rat) (q : String) :
    create_multi_query_retriever exec question llm num_queries
        bm25_retriever strategy base_k fetch_k lambda_mult score_threshold
        metadata_filter bm25_weight q =
      (dedup_first ((generate_multi_queries question llm num_queries).flatMap
        (multi_query_retrieve exec bm25_retriever strategy base_k fetch_k
          lambda_mult score_threshold metadata_filter bm25_weight))).take
        (base_k * 2) ∧
    (create_multi_query_retriever exec question llm num_queries
        bm25_retriever strategy base_k fetch_k lambda_mult score_threshold
        metadata_filter bm25_weight q).Pairwise
      (fun a b => fingerprint a ≠ fingerprint b) ∧
    (create_multi_query_retriever exec question llm num_queries
        bm25_retriever strategy base_k fetch_k lambda_mult score_threshold
        metadata_filter bm25_weight q).Sublist
      ((generate_multi_queries question llm num_queries).flatMap
        (multi_query_retrieve exec bm25_retriever strategy base_k fetch_k
          lambda_mult score_threshold metadata_filter bm25_weight)) ∧
    (create_multi_query_retriever exec question llm num_queries
        bm25_retriever strategy base_k fetch_k lambda_mult score_threshold
        metadata_filter bm25_weight q).length ≤ 2 * base_k := by
  have hpool : create_multi_query_retriever exec question llm num_queries
      bm25_retriever strategy base_k fetch_k lambda_mult score_threshold
      metadata_filter bm25_weight q =
      (dedup_first ((generate_multi_queries question llm num_queries).flatMap
        (multi_query_retrieve exec bm25_retriever strategy base_k fetch_k
          lambda_mult score_threshold metadata_filter bm25_weight))).take
        (base_k * 2) := by
    unfold create_multi_query_retriever
    rw [merge_query_results_eq]
  refine ⟨hpool, ?_, ?_, ?_⟩
  · rw [hpool]
    exact List.Pairwise.take (dedup_first_from_pairwise _ [])
  · rw [hpool]
    exact (List.take_sublist _ _).trans (dedup_first_from_sublist _ [])
  · rw [hpool]
    have := List.length_take_le (base_k * 2)
      (dedup_first ((generate_multi_queries question llm num_queries).flatMap
        (multi_query_retrieve exec bm25_retriever strategy base_k fetch_k
          lambda_mult score_threshold metadata_filter bm25_weight)))
    omega

end Rag
